import Mathlib

/-!
Shallow embedding of the `todo-app-hex` domain core (TypeScript), covering the
value objects (`TodoId`, `TodoTitle`, `TodoStatus`), the `Todo` entity, the
in-memory repository adapter and the `CreateTodo` / `UpdateTodo` use cases.

Modelling conventions, fixed once for the whole file:
* JavaScript exceptions become `Except AppError`; a thrown error aborts the
  surrounding method before any later field assignment runs, which the
  `Except` monad reproduces exactly (no partial state is ever produced).
* `Date` values are modelled as `Nat` timestamps.  Each entity operation reads
  the clock as a single parameter `now`; the two `new Date()` defaults inside
  the `Todo` constructor happen in the same constructor run and are modelled
  as the same instant.
* `Math.random().toString(36).substr(2, 9)` is modelled as an arbitrary
  string parameter `rand`.
* TypeScript's string enum `TodoStatusEnum` is erased at runtime; the Mongo
  adapter even casts a persisted string with `as any`.  Status values are
  therefore modelled as arbitrary `String`s, with `"PENDING"`/`"COMPLETED"`
  the two enum constants.
* JS string truthiness (`!value`, `value || d`) is: a string is falsy iff it
  is `""`.  An optional (possibly `undefined`) argument is an `Option`.
* JS `String.prototype.length` counts UTF-16 code units: astral-plane
  characters count 2, all others 1 (`utf16Len`).
-/

namespace TodoApp

/-- Error kinds of the spec's taxonomy (§7).  `validationError` is what the
value objects throw, `domainError` what the entity guards throw, `notFound`
is `TodoNotFoundException`, and `repoMissing` is the plain `Error` thrown by
the repository's `update` when the id is absent. -/
inductive AppError where
  | validationError (msg : String)
  | domainError (msg : String)
  | notFound (id : String)
  | repoMissing (id : String)
  deriving DecidableEq

/-- Decidable equality for `Except`, used to evaluate concrete runs. -/
instance {e a : Type} [DecidableEq e] [DecidableEq a] : DecidableEq (Except e a) := fun x y =>
  match x, y with
  | .ok v, .ok w =>
      if h : v = w then isTrue (by rw [h]) else isFalse (by intro hh; cases hh; exact h rfl)
  | .error v, .error w =>
      if h : v = w then isTrue (by rw [h]) else isFalse (by intro hh; cases hh; exact h rfl)
  | .ok _, .error _ => isFalse (by intro hh; cases hh)
  | .error _, .ok _ => isFalse (by intro hh; cases hh)

/-- The characters stripped by JavaScript `String.prototype.trim`:
ECMAScript WhiteSpace and LineTerminator code points. -/
def jsWhitespace (c : Char) : Bool :=
  c = ' ' || c = '\t' || c = '\n' || c = '\r' || c = '\x0b' || c = '\x0c' ||
  c = '\u00a0' || c = '\u1680' || ('\u2000' ≤ c && c ≤ '\u200a') ||
  c = '\u2028' || c = '\u2029' || c = '\u202f' || c = '\u205f' ||
  c = '\u3000' || c = '\ufeff'

/-- `trim` on the character list: drop leading, then trailing, whitespace. -/
def trimChars (l : List Char) : List Char :=
  (l.dropWhile jsWhitespace).rdropWhile jsWhitespace

/-- JavaScript `s.trim()`. -/
def jsTrim (s : String) : String :=
  ⟨trimChars s.data⟩

/-- JavaScript `s.length`: UTF-16 code units. -/
def utf16Len (l : List Char) : Nat :=
  (l.map fun c => if 0x10000 ≤ c.toNat then 2 else 1).sum

/-- Value object `TodoTitle` (src/unnamed/part_009): holds the trimmed text. -/
structure TodoTitle where
  value : String
  deriving DecidableEq

/-- `TodoTitle.validate`: throws when the title is falsy or trims to empty,
or when the trimmed length exceeds 200. -/
def TodoTitle.validate (value : String) : Except AppError Unit :=
  if value = "" ∨ utf16Len (trimChars value.data) = 0 then
    .error (.validationError "Todo title cannot be empty")
  else if 200 < utf16Len (trimChars value.data) then
    .error (.validationError "Todo title cannot exceed 200 characters")
  else
    .ok ()

/-- `new TodoTitle(value)`: validate, then store `value.trim()`. -/
def TodoTitle.create (value : String) : Except AppError TodoTitle :=
  (TodoTitle.validate value).map fun _ => ⟨jsTrim value⟩

/-- Value object `TodoId` (src/src/domain/value-objects/TodoId.ts). -/
structure TodoId where
  value : String
  deriving DecidableEq

/-- `generateId`: a timestamp, a dash, and a random base-36 suffix. -/
def TodoId.generateId (now : Nat) (rand : String) : String :=
  toString now ++ "-" ++ rand

/-- `new TodoId(value?)`: `value || this.generateId()`; the empty string is
falsy, so it is replaced by a generated id as well. -/
def TodoId.create (value : Option String) (now : Nat) (rand : String) : TodoId :=
  match value with
  | some v => if v = "" then ⟨TodoId.generateId now rand⟩ else ⟨v⟩
  | none => ⟨TodoId.generateId now rand⟩

/-- Value object `TodoStatus` (src/src/domain/value-objects/TodoStatus.ts).
The runtime value is a plain string; the constructor performs no check. -/
structure TodoStatus where
  value : String
  deriving DecidableEq

/-- `new TodoStatus(value = TodoStatusEnum.PENDING)`: defaulting only, no
validation of the supplied value. -/
def TodoStatus.create (value : Option String) : TodoStatus :=
  ⟨value.getD "PENDING"⟩

def TodoStatus.isPending (s : TodoStatus) : Bool :=
  s.value = "PENDING"

def TodoStatus.isCompleted (s : TodoStatus) : Bool :=
  s.value = "COMPLETED"

/-- `TodoStatus.complete()`: a fresh COMPLETED status. -/
def TodoStatus.complete (_ : TodoStatus) : TodoStatus :=
  ⟨"COMPLETED"⟩

/-- `TodoProps` (src/src/domain/entities/Todo.ts): raw constructor input and
serialized form; optional fields are `Option`s. -/
structure TodoProps where
  id : Option String
  title : String
  description : Option String
  status : Option String
  createdAt : Option Nat
  updatedAt : Option Nat
  deriving DecidableEq

/-- The `Todo` entity's fields. -/
structure Todo where
  id : TodoId
  title : TodoTitle
  description : String
  status : TodoStatus
  createdAt : Nat
  updatedAt : Nat
  deriving DecidableEq

/-- `new Todo(props)`: builds the value objects (title validation can throw),
`props.description || ''`, and defaults both timestamps to the construction
instant `now`.  Caller-supplied timestamps are taken as given, unchecked. -/
def Todo.construct (props : TodoProps) (now : Nat) (rand : String) :
    Except AppError Todo :=
  (TodoTitle.create props.title).map fun t =>
    { id := TodoId.create props.id now rand
      title := t
      description := props.description.getD ""
      status := TodoStatus.create props.status
      createdAt := props.createdAt.getD now
      updatedAt := props.updatedAt.getD now }

/-- `updateTitle`: `this.title = new TodoTitle(title)` (which may throw,
before anything is assigned), then refresh `updatedAt`. -/
def Todo.updateTitle (t : Todo) (title : String) (now : Nat) :
    Except AppError Todo :=
  (TodoTitle.create title).map fun tt => { t with title := tt, updatedAt := now }

/-- `updateDescription`: unconditional replace, refresh `updatedAt`. -/
def Todo.updateDescription (t : Todo) (description : String) (now : Nat) : Todo :=
  { t with description := description, updatedAt := now }

/-- `complete()`: guard against an already-COMPLETED status, else transition
and refresh `updatedAt`. -/
def Todo.complete (t : Todo) (now : Nat) : Except AppError Todo :=
  if t.status.isCompleted then
    .error (.domainError "Todo is already completed")
  else
    .ok { t with status := t.status.complete, updatedAt := now }

/-- `reopen()`: guard against an already-PENDING status, else transition and
refresh `updatedAt`. -/
def Todo.reopen (t : Todo) (now : Nat) : Except AppError Todo :=
  if t.status.isPending then
    .error (.domainError "Todo is already pending")
  else
    .ok { t with status := ⟨"PENDING"⟩, updatedAt := now }

/-- `toObject()`: the serialized, plain representation. -/
def Todo.toObject (t : Todo) : TodoProps :=
  { id := some t.id.value
    title := t.title.value
    description := some t.description
    status := some t.status.value
    createdAt := some t.createdAt
    updatedAt := some t.updatedAt }

/-- Facts every `Todo` that the constructor has produced enjoys: the id text
is non-empty and the title text is trimmed with JS length between 1 and 200.
(The status and the timestamps obey no constructor-enforced constraint.) -/
def Todo.Wf (t : Todo) : Prop :=
  t.id.value ≠ "" ∧ trimChars t.title.value.data = t.title.value.data ∧
  1 ≤ utf16Len t.title.value.data ∧ utf16Len t.title.value.data ≤ 200

/-! ### In-memory repository adapter (src/unnamed/part_007)

`InMemoryTodoRepository` keeps a `Map<string, TodoProps>`; it stores
`todo.toObject()` (a fresh plain-data record on every call) and every read
returns `new Todo(record)`.  The map is modelled as an association list with
JS `Map` semantics: `set` replaces an existing key in place, else appends;
reads take the first (unique) match.  Reconstruction from a fully populated
record never consults the clock or the random source, so those arguments are
passed as `0` and `""`. -/

/-- The repository's backing store. -/
abbrev RepoState := List (String × TodoProps)

/-- JS `Map.set`: replace in place if the key exists, else append. -/
def storeSet : RepoState → String → TodoProps → RepoState
  | [], k, v => [(k, v)]
  | e :: rest, k, v => if e.1 = k then (k, v) :: rest else e :: storeSet rest k v

/-- JS `Map.get`. -/
def storeGet (m : RepoState) (k : String) : Option TodoProps :=
  (m.find? fun e => e.1 = k).map fun e => e.2

/-- JS `Map.has`. -/
def storeHas (m : RepoState) (k : String) : Bool :=
  (storeGet m k).isSome

/-- JS `Map.delete` (the removal part). -/
def storeDelete : RepoState → String → RepoState
  | [], _ => []
  | e :: rest, k => if e.1 = k then rest else e :: storeDelete rest k

/-- `save`: store `todo.toObject()` under its id, return `new Todo(todoData)`. -/
def InMemoryTodoRepository.save (s : RepoState) (todo : Todo) :
    Except AppError (RepoState × Todo) :=
  let todoData := todo.toObject
  (Todo.construct todoData 0 "").map fun t =>
    (storeSet s (todoData.id.getD "") todoData, t)

/-- `findById`: look the record up and reconstruct a fresh entity from it. -/
def InMemoryTodoRepository.findById (s : RepoState) (id : String) :
    Except AppError (Option Todo) :=
  match storeGet s id with
  | none => .ok none
  | some todoData => (Todo.construct todoData 0 "").map some

/-- `findAll`: reconstruct every stored record, in insertion order. -/
def InMemoryTodoRepository.findAll (s : RepoState) :
    Except AppError (List Todo) :=
  s.mapM fun e => Todo.construct e.2 0 ""

/-- `update`: throws when the id is not stored; else overwrite and return a
reconstruction. -/
def InMemoryTodoRepository.update (s : RepoState) (todo : Todo) :
    Except AppError (RepoState × Todo) :=
  let todoData := todo.toObject
  let id := todoData.id.getD ""
  if storeHas s id then
    (Todo.construct todoData 0 "").map fun t => (storeSet s id todoData, t)
  else
    .error (.repoMissing id)

/-- `delete`: remove the record, report whether one was there. -/
def InMemoryTodoRepository.delete (s : RepoState) (id : String) :
    RepoState × Bool :=
  (storeDelete s id, storeHas s id)

/-! ### Use cases (application layer) -/

/-- Input of `CreateTodoUseCase`. -/
structure CreateTodoCommand where
  title : String
  description : Option String
  deriving DecidableEq

/-- `CreateTodo.execute`: build a fresh entity (only title/description given)
and `save` it, returning the repository's reconstruction.  A thrown
`ValidationError` propagates before any repository call. -/
def CreateTodo.execute (s : RepoState) (cmd : CreateTodoCommand)
    (now : Nat) (rand : String) : Except AppError (RepoState × Todo) :=
  match Todo.construct
      { id := none, title := cmd.title, description := cmd.description,
        status := none, createdAt := none, updatedAt := none } now rand with
  | .error e => .error e
  | .ok todo => InMemoryTodoRepository.save s todo

/-- Input of `UpdateTodoUseCase`. -/
structure UpdateTodoCommand where
  id : String
  title : Option String
  description : Option String
  deriving DecidableEq

/-- `UpdateTodo.execute`: fetch (NotFound when absent); `if (command.title)`
is a JS truthiness test, so the title is applied only when present and
non-empty; the description is applied whenever it is not `undefined`
(empty string included); then persist via `update`. -/
def UpdateTodo.execute (s : RepoState) (cmd : UpdateTodoCommand) (now : Nat) :
    Except AppError (RepoState × Todo) :=
  match InMemoryTodoRepository.findById s cmd.id with
  | .error e => .error e
  | .ok none => .error (.notFound cmd.id)
  | .ok (some todo) =>
      match (match cmd.title with
             | some ti => if ti = "" then .ok todo else todo.updateTitle ti now
             | none => .ok todo : Except AppError Todo) with
      | .error e => .error e
      | .ok todo₁ =>
          let todo₂ := match cmd.description with
            | some d => todo₁.updateDescription d now
            | none => todo₁
          InMemoryTodoRepository.update s todo₂

/-! ### Object-heap world for the aliasing claim

JS objects have reference semantics, so "the repository hands out snapshots,
not aliases" is stated over a small heap: `objs` is the list of live `Todo`
objects (addresses are list indices) and `repo` is the backing store, which
holds plain `TodoProps` data — exactly what the source stores, since it only
ever inserts `todo.toObject()` output and no code path mutates a props
record after storing it.  Repository reads allocate a new object; entity
mutators overwrite the object at one address and touch nothing else. -/

structure World where
  repo : RepoState
  objs : List Todo
  deriving DecidableEq

/-- `findById` through the heap: reconstruct and allocate a fresh object. -/
def World.findById (w : World) (id : String) :
    Except AppError (World × Option Nat) :=
  match storeGet w.repo id with
  | none => .ok (w, none)
  | some todoData =>
      (Todo.construct todoData 0 "").map fun t =>
        ({ w with objs := w.objs ++ [t] }, some w.objs.length)

/-- `findAll` through the heap: one fresh object per stored record. -/
def World.findAll (w : World) : Except AppError (World × List Nat) :=
  (InMemoryTodoRepository.findAll w.repo).map fun ts =>
    ({ w with objs := w.objs ++ ts },
     (List.range ts.length).map fun i => w.objs.length + i)

/-- Calling `complete()` on the object at address `a`: in-place mutation of
that object only. -/
def World.completeAt (w : World) (a : Nat) (now : Nat) :
    Except AppError World :=
  match w.objs[a]? with
  | none => .error (.domainError "dangling reference")
  | some t => (t.complete now).map fun t' => { w with objs := w.objs.set a t' }

/-- `update(todo)` with the object at address `a`: writes its serialized form
to the store and allocates the returned reconstruction. -/
def World.updateAt (w : World) (a : Nat) :
    Except AppError (World × Nat) :=
  match w.objs[a]? with
  | none => .error (.domainError "dangling reference")
  | some t =>
      (InMemoryTodoRepository.update w.repo t).map fun r =>
        ({ repo := r.1, objs := w.objs ++ [r.2] }, w.objs.length)

/-- `save(todo)` with the object at address `a`. -/
def World.saveAt (w : World) (a : Nat) :
    Except AppError (World × Nat) :=
  match w.objs[a]? with
  | none => .error (.domainError "dangling reference")
  | some t =>
      (InMemoryTodoRepository.save w.repo t).map fun r =>
        ({ repo := r.1, objs := w.objs ++ [r.2] }, w.objs.length)

/-! ### Helper lemmas -/

theorem utf16Len_eq_zero_iff (l : List Char) : utf16Len l = 0 ↔ l = [] := by
  cases l with
  | nil => simp [utf16Len]
  | cons c cs =>
      simp only [utf16Len, List.map_cons, List.sum_cons]
      constructor
      · intro h
        exfalso
        split at h <;> omega
      · intro h
        exact absurd h (List.cons_ne_nil c cs)

theorem trimChars_idem (l : List Char) : trimChars (trimChars l) = trimChars l := by
  unfold trimChars
  obtain ⟨u, hu⟩ := List.rdropWhile_prefix jsWhitespace (l.dropWhile jsWhitespace)
  cases hr : List.rdropWhile jsWhitespace (l.dropWhile jsWhitespace) with
  | nil => simp [hr]
  | cons a r' =>
      have hm : l.dropWhile jsWhitespace = a :: (r' ++ u) := by
        rw [← hu, hr]
        simp
      have h1 := List.head?_dropWhile_not jsWhitespace l
      rw [hm] at h1
      simp only [List.head?_cons] at h1
      rw [List.dropWhile_cons, if_neg (by simp [h1]), ← hr,
        List.rdropWhile_idempotent]

theorem jsTrim_idem (s : String) : jsTrim (jsTrim s) = jsTrim s :=
  congrArg String.mk (trimChars_idem s.data)

theorem title_validate_ok (s : String) (h1 : 1 ≤ utf16Len (trimChars s.data))
    (h2 : utf16Len (trimChars s.data) ≤ 200) :
    TodoTitle.validate s = .ok () := by
  have hne : ¬(s = "" ∨ utf16Len (trimChars s.data) = 0) := by
    rintro (h | h)
    · subst h
      exact absurd h1 (by decide)
    · omega
  rw [TodoTitle.validate, if_neg hne, if_neg (by omega)]

theorem title_create_ok (s : String) (h1 : 1 ≤ utf16Len (trimChars s.data))
    (h2 : utf16Len (trimChars s.data) ≤ 200) :
    TodoTitle.create s = .ok ⟨jsTrim s⟩ := by
  rw [TodoTitle.create, title_validate_ok s h1 h2]
  rfl

theorem title_create_err (s : String)
    (h : utf16Len (trimChars s.data) = 0 ∨ 200 < utf16Len (trimChars s.data)) :
    ∃ msg, TodoTitle.create s = .error (.validationError msg) := by
  rw [TodoTitle.create, TodoTitle.validate]
  rcases h with h | h
  · rw [if_pos (Or.inr h)]
    exact ⟨_, rfl⟩
  · rw [if_neg, if_pos h]
    · exact ⟨_, rfl⟩
    · rintro (h' | h')
      · subst h'
        exact absurd h (by decide)
      · omega

theorem title_create_ok_inv (s : String) (t : TodoTitle)
    (h : TodoTitle.create s = .ok t) :
    t = ⟨jsTrim s⟩ ∧ 1 ≤ utf16Len (trimChars s.data) ∧
      utf16Len (trimChars s.data) ≤ 200 := by
  rw [TodoTitle.create, TodoTitle.validate] at h
  split at h
  · simp [Except.map] at h
  · split at h
    · simp [Except.map] at h
    · rename_i h1 h2
      rw [not_or] at h1
      simp [Except.map] at h
      exact ⟨h.symm, by omega, by omega⟩

/-! ### Claim theorems -/

/-- C1: constructing a `TodoTitle` from `s` succeeds if and only if
`1 ≤ len(trim s) ≤ 200` (JS length of the trimmed text); on success the
stored value is `trim s`, and on failure the error is a ValidationError. -/
theorem c1_title_construction (s : String) :
    ((∃ tt, TodoTitle.create s = .ok tt) ↔
      1 ≤ utf16Len (trimChars s.data) ∧ utf16Len (trimChars s.data) ≤ 200) ∧
    (∀ tt, TodoTitle.create s = .ok tt → tt.value = jsTrim s) ∧
    (¬(1 ≤ utf16Len (trimChars s.data) ∧ utf16Len (trimChars s.data) ≤ 200) →
      ∃ msg, TodoTitle.create s = .error (.validationError msg)) := by
  refine ⟨⟨?_, ?_⟩, ?_, ?_⟩
  · rintro ⟨tt, h⟩
    exact (title_create_ok_inv s tt h).2
  · intro h
    exact ⟨_, title_create_ok s h.1 h.2⟩
  · intro tt h
    rw [(title_create_ok_inv s tt h).1]
  · intro h
    refine title_create_err s ?_
    omega

/-- Witness for C1 at the accepted input `"  Buy milk "` and the rejected
all-whitespace input `"   "`. -/
theorem c1_witness :
    (∃ tt, TodoTitle.create "  Buy milk " = .ok tt) ∧
    (∃ msg, TodoTitle.create "   " = .error (.validationError msg)) :=
  ⟨(c1_title_construction "  Buy milk ").1.mpr (by decide),
   (c1_title_construction "   ").2.2 (by decide)⟩

/-- C2: `complete()` on an already-COMPLETED todo fails with a DomainError
(and, the call having thrown before any assignment, the entity is
unchanged — the model returns no new state on error); on a PENDING todo it
transitions to COMPLETED and sets `updatedAt` to the mutation instant. -/
theorem c2_complete_guard (t : Todo) (now : Nat) :
    (t.status.value = "COMPLETED" →
      t.complete now = .error (.domainError "Todo is already completed")) ∧
    (t.status.value = "PENDING" →
      t.complete now = .ok { t with status := ⟨"COMPLETED"⟩, updatedAt := now }) := by
  constructor <;> intro h <;>
    simp [Todo.complete, TodoStatus.isCompleted, TodoStatus.complete, h]

/-- Witness for C2: a concrete COMPLETED todo is rejected, a concrete
PENDING todo transitions. -/
theorem c2_witness :
    Todo.complete ⟨⟨"a"⟩, ⟨"T"⟩, "", ⟨"COMPLETED"⟩, 0, 0⟩ 5 =
      .error (.domainError "Todo is already completed") ∧
    Todo.complete ⟨⟨"a"⟩, ⟨"T"⟩, "", ⟨"PENDING"⟩, 0, 0⟩ 5 =
      .ok ⟨⟨"a"⟩, ⟨"T"⟩, "", ⟨"COMPLETED"⟩, 0, 5⟩ :=
  ⟨(c2_complete_guard ⟨⟨"a"⟩, ⟨"T"⟩, "", ⟨"COMPLETED"⟩, 0, 0⟩ 5).1 rfl,
   (c2_complete_guard ⟨⟨"a"⟩, ⟨"T"⟩, "", ⟨"PENDING"⟩, 0, 0⟩ 5).2 rfl⟩

/-- C7: `reopen()` on a PENDING todo fails with a DomainError (the entity
unchanged, no state escaping the failed call); on a COMPLETED todo it
transitions back to PENDING and refreshes `updatedAt`. -/
theorem c7_reopen_guard (t : Todo) (now : Nat) :
    (t.status.value = "PENDING" →
      t.reopen now = .error (.domainError "Todo is already pending")) ∧
    (t.status.value = "COMPLETED" →
      t.reopen now = .ok { t with status := ⟨"PENDING"⟩, updatedAt := now }) := by
  constructor <;> intro h <;>
    simp [Todo.reopen, TodoStatus.isPending, h]

/-- Witness for C7 at a concrete PENDING and a concrete COMPLETED todo. -/
theorem c7_witness :
    Todo.reopen ⟨⟨"a"⟩, ⟨"T"⟩, "", ⟨"PENDING"⟩, 0, 0⟩ 5 =
      .error (.domainError "Todo is already pending") ∧
    Todo.reopen ⟨⟨"a"⟩, ⟨"T"⟩, "", ⟨"COMPLETED"⟩, 0, 0⟩ 5 =
      .ok ⟨⟨"a"⟩, ⟨"T"⟩, "", ⟨"PENDING"⟩, 0, 5⟩ :=
  ⟨(c7_reopen_guard ⟨⟨"a"⟩, ⟨"T"⟩, "", ⟨"PENDING"⟩, 0, 0⟩ 5).1 rfl,
   (c7_reopen_guard ⟨⟨"a"⟩, ⟨"T"⟩, "", ⟨"COMPLETED"⟩, 0, 0⟩ 5).2 rfl⟩

theorem generateId_ne_empty (now : Nat) (rand : String) :
    TodoId.generateId now rand ≠ "" := by
  intro h
  have h2 := congrArg String.length h
  rw [TodoId.generateId] at h2
  simp only [String.length_append, String.length_empty] at h2
  have h3 : ("-" : String).length = 1 := rfl
  omega

theorem todoId_create_ne_empty (o : Option String) (now : Nat) (rand : String) :
    (TodoId.create o now rand).value ≠ "" := by
  cases o with
  | none => exact generateId_ne_empty now rand
  | some v =>
      rw [TodoId.create]
      split
      · exact generateId_ne_empty now rand
      · rename_i hv
        exact hv

theorem construct_fields (p : TodoProps) (now : Nat) (rand : String) (t : Todo)
    (h : Todo.construct p now rand = .ok t) :
    t.id = TodoId.create p.id now rand ∧
    t.title = ⟨jsTrim p.title⟩ ∧
    t.description = p.description.getD "" ∧
    t.status = TodoStatus.create p.status ∧
    t.createdAt = p.createdAt.getD now ∧
    t.updatedAt = p.updatedAt.getD now ∧
    1 ≤ utf16Len (trimChars p.title.data) ∧
    utf16Len (trimChars p.title.data) ≤ 200 := by
  rw [Todo.construct] at h
  cases hc : TodoTitle.create p.title with
  | error e =>
      rw [hc] at h
      simp [Except.map] at h
  | ok tt =>
      obtain ⟨rfl, h1, h2⟩ := title_create_ok_inv p.title tt hc
      rw [hc] at h
      simp [Except.map] at h
      subst h
      exact ⟨rfl, rfl, rfl, rfl, rfl, rfl, h1, h2⟩

theorem construct_ok (p : TodoProps) (now : Nat) (rand : String)
    (h1 : 1 ≤ utf16Len (trimChars p.title.data))
    (h2 : utf16Len (trimChars p.title.data) ≤ 200) :
    Todo.construct p now rand = .ok
      { id := TodoId.create p.id now rand
        title := ⟨jsTrim p.title⟩
        description := p.description.getD ""
        status := TodoStatus.create p.status
        createdAt := p.createdAt.getD now
        updatedAt := p.updatedAt.getD now } := by
  rw [Todo.construct, title_create_ok p.title h1 h2]
  rfl

theorem construct_wf (p : TodoProps) (now : Nat) (rand : String) (t : Todo)
    (h : Todo.construct p now rand = .ok t) : t.Wf := by
  obtain ⟨hid, htitle, -, -, -, -, h1, h2⟩ := construct_fields p now rand t h
  refine ⟨?_, ?_, ?_, ?_⟩
  · rw [hid]
    exact todoId_create_ne_empty p.id now rand
  · rw [htitle]
    exact trimChars_idem p.title.data
  · rw [htitle]
    exact h1
  · rw [htitle]
    exact h2

theorem wf_roundtrip (t : Todo) (hwf : t.Wf) (now : Nat) (rand : String) :
    Todo.construct t.toObject now rand = .ok t := by
  obtain ⟨⟨iv⟩, ⟨tv⟩, dsc, ⟨sv⟩, c, u⟩ := t
  obtain ⟨hid, htrim, h1, h2⟩ := hwf
  have hjs : jsTrim tv = tv := congrArg String.mk htrim
  have hb1 : 1 ≤ utf16Len (trimChars tv.data) := by
    rw [htrim]
    exact h1
  have hb2 : utf16Len (trimChars tv.data) ≤ 200 := by
    rw [htrim]
    exact h2
  rw [Todo.toObject, construct_ok _ now rand hb1 hb2]
  simp only [Except.ok.injEq]
  simp [TodoId.create, TodoStatus.create, hid, hjs]

/-- C6: reconstructing a `Todo` from its own serialized form
(`new Todo(t.toObject())`) succeeds and reproduces every field of `t`,
for any `t` the constructor accepted (any props, clock and random values). -/
theorem c6_roundtrip (p : TodoProps) (now now' : Nat) (rand rand' : String)
    (t : Todo) (h : Todo.construct p now rand = .ok t) :
    Todo.construct t.toObject now' rand' = .ok t :=
  wf_roundtrip t (construct_wf p now rand t h) now' rand'

/-- Witness for C6 at a concrete construction (note the title arrives
trimmed in the serialized form and survives reconstruction). -/
theorem c6_witness :
    Todo.construct
        (Todo.toObject ⟨⟨"3-r"⟩, ⟨"Task"⟩, "", ⟨"PENDING"⟩, 3, 3⟩) 9 "z" =
      .ok ⟨⟨"3-r"⟩, ⟨"Task"⟩, "", ⟨"PENDING"⟩, 3, 3⟩ :=
  c6_roundtrip
    { id := none, title := " Task ", description := none, status := none,
      createdAt := none, updatedAt := none } 3 9 "r" "z"
    ⟨⟨"3-r"⟩, ⟨"Task"⟩, "", ⟨"PENDING"⟩, 3, 3⟩ (by decide)

/-- C3 counterexample: reconstructing a `Todo` from persisted raw fields with
the out-of-enum status string "BOGUS" does not fail — `TodoStatus` performs
no runtime validation — so the claim that every status outside
PENDING/COMPLETED is rejected is false, and a live `Todo` can carry a status
outside that set. -/
theorem c3_counterexample :
    Todo.construct
        { id := some "a", title := "Task", description := some "",
          status := some "BOGUS", createdAt := some 0, updatedAt := some 0 }
        0 "" =
      .ok ⟨⟨"a"⟩, ⟨"Task"⟩, "", ⟨"BOGUS"⟩, 0, 0⟩ := by
  decide

/-- C3 amended: reconstruction from persisted raw fields re-runs Title
validation (an invalid stored title makes construction fail with a
ValidationError), but Status validation does not exist: whatever status
string is stored is adopted verbatim by the reconstructed entity. -/
theorem c3_amended (p : TodoProps) (v : String) (now : Nat) (rand : String)
    (hst : p.status = some v) :
    (utf16Len (trimChars p.title.data) = 0 ∨
        200 < utf16Len (trimChars p.title.data) →
      ∃ msg, Todo.construct p now rand = .error (.validationError msg)) ∧
    (∀ t, Todo.construct p now rand = .ok t → t.status.value = v) := by
  constructor
  · intro hbad
    obtain ⟨msg, hm⟩ := title_create_err p.title hbad
    rw [Todo.construct, hm]
    exact ⟨msg, rfl⟩
  · intro t ht
    obtain ⟨-, -, -, hstat, -, -, -, -⟩ := construct_fields p now rand t ht
    rw [hstat, TodoStatus.create, hst]
    rfl

/-- Witness for C3 amended: a stored all-whitespace title is rejected on
reconstruction; a stored "BOGUS" status is adopted verbatim. -/
theorem c3_witness :
    (∃ msg,
      Todo.construct
          { id := some "a", title := "   ", description := some "",
            status := some "X", createdAt := some 0, updatedAt := some 0 }
          0 "" =
        .error (.validationError msg)) ∧
    TodoStatus.value
        (Todo.status ⟨⟨"a"⟩, ⟨"Task"⟩, "", ⟨"BOGUS"⟩, 0, 0⟩) = "BOGUS" :=
  ⟨(c3_amended
      { id := some "a", title := "   ", description := some "",
        status := some "X", createdAt := some 0, updatedAt := some 0 }
      "X" 0 "" rfl).1 (by decide),
   (c3_amended
      { id := some "a", title := "Task", description := some "",
        status := some "BOGUS", createdAt := some 0, updatedAt := some 0 }
      "BOGUS" 0 "" rfl).2 ⟨⟨"a"⟩, ⟨"Task"⟩, "", ⟨"BOGUS"⟩, 0, 0⟩ (by decide)⟩

/-- C4 counterexample: the constructor accepts caller-supplied
`createdAt = 1`, `updatedAt = 0` without any check, producing a live `Todo`
with `updatedAt < createdAt`; the claimed invariant is not enforced. -/
theorem c4_counterexample :
    (Todo.construct
        { id := none, title := "Task", description := none, status := none,
          createdAt := some 1, updatedAt := some 0 }
        7 "r").toOption.map (fun t => decide (t.createdAt ≤ t.updatedAt)) =
      some false := by
  decide

/-- C4 amended: when the caller omits both timestamps they default to the
same construction instant (so `updatedAt = createdAt`), and every mutator
stamps `updatedAt` with the mutation instant, preserving
`createdAt ≤ updatedAt` whenever the clock is not behind `createdAt`; but
caller-supplied timestamps are accepted unchecked, so the entity itself does
not enforce `updatedAt ≥ createdAt` for arbitrary constructor props. -/
theorem c4_amended (p : TodoProps) (t : Todo) (now now' : Nat)
    (rand s d : String) :
    (p.createdAt = none → p.updatedAt = none →
      Todo.construct p now rand = .ok t → t.updatedAt = t.createdAt) ∧
    (t.createdAt ≤ now' →
      (∀ u, t.updateTitle s now' = .ok u → u.createdAt ≤ u.updatedAt) ∧
      (t.updateDescription d now').createdAt ≤
        (t.updateDescription d now').updatedAt ∧
      (∀ u, t.complete now' = .ok u → u.createdAt ≤ u.updatedAt) ∧
      (∀ u, t.reopen now' = .ok u → u.createdAt ≤ u.updatedAt)) := by
  constructor
  · intro hc hu h
    obtain ⟨-, -, -, -, hca, hua, -, -⟩ := construct_fields p now rand t h
    rw [hca, hua, hc, hu]
  · intro hle
    refine ⟨?_, hle, ?_, ?_⟩
    · intro u hu
      rw [Todo.updateTitle] at hu
      cases hc : TodoTitle.create s with
      | error e =>
          rw [hc] at hu
          simp [Except.map] at hu
      | ok tt =>
          rw [hc] at hu
          simp [Except.map] at hu
          subst hu
          exact hle
    · intro u hu
      rw [Todo.complete] at hu
      split at hu
      · simp at hu
      · injection hu with hu
        subst hu
        exact hle
    · intro u hu
      rw [Todo.reopen] at hu
      split at hu
      · simp at hu
      · injection hu with hu
        subst hu
        exact hle

/-- Witness for C4 amended at a concrete todo and clock. -/
theorem c4_witness :
    Todo.updatedAt ⟨⟨"4-r"⟩, ⟨"T"⟩, "", ⟨"PENDING"⟩, 4, 4⟩ =
      Todo.createdAt ⟨⟨"4-r"⟩, ⟨"T"⟩, "", ⟨"PENDING"⟩, 4, 4⟩ ∧
    ∀ u, Todo.complete ⟨⟨"4-r"⟩, ⟨"T"⟩, "", ⟨"PENDING"⟩, 4, 4⟩ 9 = .ok u →
      u.createdAt ≤ u.updatedAt :=
  ⟨(c4_amended
      { id := none, title := "T", description := none, status := none,
        createdAt := none, updatedAt := none }
      ⟨⟨"4-r"⟩, ⟨"T"⟩, "", ⟨"PENDING"⟩, 4, 4⟩ 4 9 "r" "S" "D").1 rfl rfl
      (by decide),
   ((c4_amended
      { id := none, title := "T", description := none, status := none,
        createdAt := none, updatedAt := none }
      ⟨⟨"4-r"⟩, ⟨"T"⟩, "", ⟨"PENDING"⟩, 4, 4⟩ 4 9 "r" "S" "D").2
      (by decide)).2.2.1⟩

theorem storeGet_storeSet_same (s : RepoState) (k : String) (v : TodoProps) :
    storeGet (storeSet s k v) k = some v := by
  induction s with
  | nil => simp [storeSet, storeGet]
  | cons e rest ih =>
      rw [storeSet]
      split
      · simp [storeGet]
      · rename_i he
        simpa [storeGet, List.find?_cons, he] using ih

theorem storeGet_storeSet_other (s : RepoState) (k k' : String) (v : TodoProps)
    (h : k' ≠ k) : storeGet (storeSet s k v) k' = storeGet s k' := by
  induction s with
  | nil => simp [storeSet, storeGet, Ne.symm h]
  | cons e rest ih =>
      rw [storeSet]
      split
      · rename_i he
        subst he
        simp [storeGet, List.find?_cons, Ne.symm h]
      · rename_i he
        simp only [storeGet, List.find?_cons] at ih ⊢
        by_cases hek : e.1 = k'
        · simp [hek]
        · simpa [hek] using ih

theorem storeHas_of_get (s : RepoState) (k : String) (v : TodoProps)
    (h : storeGet s k = some v) : storeHas s k = true := by
  rw [storeHas, h]
  rfl

/-- C5 counterexample: an empty-string title is a provided invalid title, yet
the Update use case does not fail with a ValidationError — the JS truthiness
test skips it and the call succeeds. -/
theorem c5_counterexample :
    UpdateTodo.execute
        [("a", { id := some "a", title := "Task", description := some "",
                 status := some "PENDING", createdAt := some 0,
                 updatedAt := some 0 })]
        { id := "a", title := some "", description := none } 5 =
      .ok ([("a", { id := some "a", title := "Task", description := some "",
                    status := some "PENDING", createdAt := some 0,
                    updatedAt := some 0 })],
           ⟨⟨"a"⟩, ⟨"Task"⟩, "", ⟨"PENDING"⟩, 0, 0⟩) := by
  decide

/-- C5 amended: for every provided non-empty invalid title (all-whitespace
included), the Update use case fails with a ValidationError before the
repository write, so the stored state and the entity are left unchanged (the
failing call produces no new state); a provided empty-string title is
skipped by the truthiness test rather than validated. -/
theorem c5_amended (s : RepoState) (id ti : String) (d : Option String)
    (now : Nat) (props : TodoProps) (t : Todo)
    (hget : storeGet s id = some props)
    (hcon : Todo.construct props 0 "" = .ok t)
    (hne : ti ≠ "")
    (hbad : utf16Len (trimChars ti.data) = 0 ∨
      200 < utf16Len (trimChars ti.data)) :
    ∃ msg,
      UpdateTodo.execute s { id := id, title := some ti, description := d }
          now =
        .error (.validationError msg) := by
  obtain ⟨msg, hm⟩ := title_create_err ti hbad
  refine ⟨msg, ?_⟩
  simp [UpdateTodo.execute, InMemoryTodoRepository.findById, hget, hcon,
    Except.map, Todo.updateTitle, hm, hne]

/-- Witness for C5 amended at the all-whitespace title of Scenario F. -/
theorem c5_witness :
    ∃ msg,
      UpdateTodo.execute
          [("a", { id := some "a", title := "Task", description := some "",
                   status := some "PENDING", createdAt := some 0,
                   updatedAt := some 0 })]
          { id := "a", title := some "   ", description := none } 5 =
        .error (.validationError msg) :=
  c5_amended
    [("a", { id := some "a", title := "Task", description := some "",
             status := some "PENDING", createdAt := some 0,
             updatedAt := some 0 })]
    "a" "   " none 5
    { id := some "a", title := "Task", description := some "",
      status := some "PENDING", createdAt := some 0, updatedAt := some 0 }
    ⟨⟨"a"⟩, ⟨"Task"⟩, "", ⟨"PENDING"⟩, 0, 0⟩
    (by decide) (by decide) (by decide) (by decide)

/-- C8: creating a todo from a valid title and nothing else yields a PENDING
todo with empty description, a non-empty generated identifier, and equal
creation/update timestamps. -/
theorem c8_create_defaults (s : RepoState) (title : String) (now : Nat)
    (rand : String)
    (h1 : 1 ≤ utf16Len (trimChars title.data))
    (h2 : utf16Len (trimChars title.data) ≤ 200) :
    ∃ s' t,
      CreateTodo.execute s { title := title, description := none } now rand =
        .ok (s', t) ∧
      t.status.value = "PENDING" ∧ t.description = "" ∧ t.id.value ≠ "" ∧
      t.createdAt = t.updatedAt := by
  have hcon := construct_ok
    { id := none, title := title, description := none, status := none,
      createdAt := none, updatedAt := none } now rand h1 h2
  have hwf := construct_wf _ now rand _ hcon
  simp only [CreateTodo.execute, hcon, InMemoryTodoRepository.save,
    wf_roundtrip _ hwf 0 "", Except.map]
  exact ⟨_, _, rfl, rfl, rfl, todoId_create_ne_empty none now rand, rfl⟩

/-- Witness for C8 at Scenario A's title "Buy milk". -/
theorem c8_witness :
    ∃ s' t,
      CreateTodo.execute [] { title := "Buy milk", description := none }
          3 "r" =
        .ok (s', t) ∧
      t.status.value = "PENDING" ∧ t.description = "" ∧ t.id.value ≠ "" ∧
      t.createdAt = t.updatedAt :=
  c8_create_defaults [] "Buy milk" 3 "r" (by decide) (by decide)

/-- C9: in the Update use case a provided empty-string title is treated as
absent — the call succeeds and the stored record (title included) is exactly
the record that was already there — whereas a provided empty- or any-string
description is applied and refreshes `updatedAt`; only an absent
(`undefined`) description is skipped.  The hypotheses say the store holds, at
key `id`, the serialized form of a reconstructible todo keyed by its own id,
which is true of every record the adapter writes. -/
theorem c9_empty_title_vs_description (s : RepoState) (id : String)
    (now : Nat) (props : TodoProps) (t : Todo)
    (hget : storeGet s id = some props)
    (hcon : Todo.construct props 0 "" = .ok t)
    (hobj : props = t.toObject)
    (hkey : props.id = some id) :
    (UpdateTodo.execute s { id := id, title := some "", description := none }
          now =
        .ok (storeSet s id props, t) ∧
      storeGet (storeSet s id props) id = some props) ∧
    (∀ d : String,
      UpdateTodo.execute s { id := id, title := none, description := some d }
          now =
        .ok (storeSet s id
              (Todo.toObject { t with description := d, updatedAt := now }),
            { t with description := d, updatedAt := now }) ∧
      storeGet
          (storeSet s id
            (Todo.toObject { t with description := d, updatedAt := now }))
          id =
        some (Todo.toObject { t with description := d, updatedAt := now })) := by
  have hid : t.id.value = id := by
    rw [hobj, Todo.toObject] at hkey
    exact Option.some.inj hkey
  have hhas : storeHas s id = true := storeHas_of_get s id props hget
  have hwf := construct_wf props 0 "" t hcon
  constructor
  · constructor
    · simp only [UpdateTodo.execute, InMemoryTodoRepository.findById, hget,
        hcon, Except.map, InMemoryTodoRepository.update, ← hobj, hkey,
        Option.getD_some, hhas, if_true, reduceIte]
    · rw [storeGet_storeSet_same]
  · intro d
    have hwf2 : Todo.Wf { t with description := d, updatedAt := now } := hwf
    have hrt := wf_roundtrip { t with description := d, updatedAt := now }
      hwf2 0 ""
    rw [Todo.toObject] at hrt
    simp only [hid] at hrt
    constructor
    · simp only [UpdateTodo.execute, InMemoryTodoRepository.findById, hget,
        hcon, Except.map, Todo.updateDescription,
        InMemoryTodoRepository.update, Todo.toObject, Option.getD_some, hid,
        hhas, if_true, hrt]
    · rw [storeGet_storeSet_same]

/-- Witness for C9 at a concrete one-record store. -/
theorem c9_witness :
    UpdateTodo.execute
        [("a", { id := some "a", title := "Task", description := some "",
                 status := some "PENDING", createdAt := some 0,
                 updatedAt := some 0 })]
        { id := "a", title := some "", description := none } 5 =
      .ok ([("a", { id := some "a", title := "Task", description := some "",
                    status := some "PENDING", createdAt := some 0,
                    updatedAt := some 0 })],
           ⟨⟨"a"⟩, ⟨"Task"⟩, "", ⟨"PENDING"⟩, 0, 0⟩) ∧
    UpdateTodo.execute
        [("a", { id := some "a", title := "Task", description := some "",
                 status := some "PENDING", createdAt := some 0,
                 updatedAt := some 0 })]
        { id := "a", title := none, description := some "D" } 5 =
      .ok ([("a", { id := some "a", title := "Task", description := some "D",
                    status := some "PENDING", createdAt := some 0,
                    updatedAt := some 5 })],
           ⟨⟨"a"⟩, ⟨"Task"⟩, "D", ⟨"PENDING"⟩, 0, 5⟩) := by
  have h := c9_empty_title_vs_description
    [("a", { id := some "a", title := "Task", description := some "",
             status := some "PENDING", createdAt := some 0,
             updatedAt := some 0 })]
    "a" 5
    { id := some "a", title := "Task", description := some "",
      status := some "PENDING", createdAt := some 0, updatedAt := some 0 }
    ⟨⟨"a"⟩, ⟨"Task"⟩, "", ⟨"PENDING"⟩, 0, 0⟩
    (by decide) (by decide) (by decide) (by decide)
  refine ⟨?_, ?_⟩
  · have h1 := h.1.1
    rw [show storeSet
        [("a", { id := some "a", title := "Task", description := some "",
                 status := some "PENDING", createdAt := some 0,
                 updatedAt := some 0 })]
        "a"
        { id := some "a", title := "Task", description := some "",
          status := some "PENDING", createdAt := some 0,
          updatedAt := some 0 } =
      [("a", { id := some "a", title := "Task", description := some "",
               status := some "PENDING", createdAt := some 0,
               updatedAt := some 0 })] from by decide] at h1
    exact h1
  · have h2 := (h.2 "D").1
    rw [show storeSet
        [("a", { id := some "a", title := "Task", description := some "",
                 status := some "PENDING", createdAt := some 0,
                 updatedAt := some 0 })]
        "a"
        (Todo.toObject ⟨⟨"a"⟩, ⟨"Task"⟩, "D", ⟨"PENDING"⟩, 0, 5⟩) =
      [("a", { id := some "a", title := "Task", description := some "D",
               status := some "PENDING", createdAt := some 0,
               updatedAt := some 5 })] from by decide] at h2
    exact h2

/-- C10: the in-memory repository hands out snapshots, not aliases.
`findById` allocates a fresh object (a fresh heap address) reconstructed
from the stored plain record; calling `complete()` on that object rewrites
that heap cell only, so the backing store of the resulting world is exactly
the original `w.repo`; only a subsequent `update` (or `save`) writes the
mutated state, and `save` with an already-present id overwrites the stored
record; `findAll` likewise leaves the store untouched and returns only
freshly allocated addresses.  Hypotheses: the store holds at `id` the
serialized form of a reconstructible todo keyed by its own id, and
`complete()` succeeds on it. -/
theorem c10_repository_snapshots (w : World) (id : String) (props : TodoProps)
    (t t' : Todo) (now : Nat)
    (hget : storeGet w.repo id = some props)
    (hcon : Todo.construct props 0 "" = .ok t)
    (hobj : props = t.toObject)
    (hkey : props.id = some id)
    (hcomp : t.complete now = .ok t') :
    World.findById w id =
      .ok ({ w with objs := w.objs ++ [t] }, some w.objs.length) ∧
    World.completeAt { w with objs := w.objs ++ [t] } w.objs.length now =
      .ok { w with objs := w.objs ++ [t'] } ∧
    World.updateAt { w with objs := w.objs ++ [t'] } w.objs.length =
      .ok ({ repo := storeSet w.repo id t'.toObject,
             objs := (w.objs ++ [t']) ++ [t'] }, (w.objs ++ [t']).length) ∧
    storeGet (storeSet w.repo id t'.toObject) id = some t'.toObject ∧
    World.saveAt { w with objs := w.objs ++ [t'] } w.objs.length =
      .ok ({ repo := storeSet w.repo id t'.toObject,
             objs := (w.objs ++ [t']) ++ [t'] }, (w.objs ++ [t']).length) ∧
    (∀ w' addrs, World.findAll w = .ok (w', addrs) →
      w'.repo = w.repo ∧ ∀ a ∈ addrs, w.objs.length ≤ a) := by
  have hid : t.id.value = id := by
    rw [hobj, Todo.toObject] at hkey
    exact Option.some.inj hkey
  have hhas : storeHas w.repo id = true := storeHas_of_get w.repo id props hget
  have hwf := construct_wf props 0 "" t hcon
  have hc2 := hcomp
  rw [Todo.complete] at hc2
  split at hc2
  · simp at hc2
  · replace hc2 := (Except.ok.inj hc2)
    subst hc2
    have hwf2 : Todo.Wf { t with status := t.status.complete, updatedAt := now } :=
      hwf
    have hrt := wf_roundtrip { t with status := t.status.complete, updatedAt := now }
      hwf2 0 ""
    rw [Todo.toObject] at hrt
    simp only [hid] at hrt
    refine ⟨?_, ?_, ?_, ?_, ?_, ?_⟩
    · simp [World.findById, hget, hcon, Except.map]
    · simp [World.completeAt, List.getElem?_concat_length, hcomp, Except.map,
        List.set_append_right, Nat.sub_self]
    · simp only [World.updateAt, List.getElem?_concat_length,
        InMemoryTodoRepository.update, Todo.toObject, Option.getD_some, hid,
        hhas, if_true, hrt, Except.map]
    · rw [storeGet_storeSet_same]
    · simp only [World.saveAt, List.getElem?_concat_length,
        InMemoryTodoRepository.save, Todo.toObject, Option.getD_some, hid,
        hrt, Except.map]
    · intro w' addrs hfa
      rw [World.findAll] at hfa
      cases hall : InMemoryTodoRepository.findAll w.repo with
      | error e =>
          rw [hall] at hfa
          simp [Except.map] at hfa
      | ok ts =>
          rw [hall] at hfa
          simp only [Except.map, Except.ok.injEq, Prod.mk.injEq] at hfa
          obtain ⟨hw', haddrs⟩ := hfa
          subst hw'
          subst haddrs
          refine ⟨rfl, ?_⟩
          intro a ha
          simp only [List.mem_map, List.mem_range] at ha
          obtain ⟨i, -, rfl⟩ := ha
          exact Nat.le_add_right _ _

/-- Witness for C10 on a one-record store: reading allocates address 0,
completing the read object leaves the stored record PENDING. -/
theorem c10_witness :
    World.findById
        ⟨[("a", { id := some "a", title := "Task", description := some "",
                  status := some "PENDING", createdAt := some 0,
                  updatedAt := some 0 })], []⟩ "a" =
      .ok (⟨[("a", { id := some "a", title := "Task", description := some "",
                     status := some "PENDING", createdAt := some 0,
                     updatedAt := some 0 })],
            [⟨⟨"a"⟩, ⟨"Task"⟩, "", ⟨"PENDING"⟩, 0, 0⟩]⟩, some 0) ∧
    World.completeAt
        ⟨[("a", { id := some "a", title := "Task", description := some "",
                  status := some "PENDING", createdAt := some 0,
                  updatedAt := some 0 })],
         [⟨⟨"a"⟩, ⟨"Task"⟩, "", ⟨"PENDING"⟩, 0, 0⟩]⟩ 0 5 =
      .ok ⟨[("a", { id := some "a", title := "Task", description := some "",
                    status := some "PENDING", createdAt := some 0,
                    updatedAt := some 0 })],
           [⟨⟨"a"⟩, ⟨"Task"⟩, "", ⟨"COMPLETED"⟩, 0, 5⟩]⟩ := by
  have h := c10_repository_snapshots
    ⟨[("a", { id := some "a", title := "Task", description := some "",
              status := some "PENDING", createdAt := some 0,
              updatedAt := some 0 })], []⟩
    "a"
    { id := some "a", title := "Task", description := some "",
      status := some "PENDING", createdAt := some 0, updatedAt := some 0 }
    ⟨⟨"a"⟩, ⟨"Task"⟩, "", ⟨"PENDING"⟩, 0, 0⟩
    ⟨⟨"a"⟩, ⟨"Task"⟩, "", ⟨"COMPLETED"⟩, 0, 5⟩
    5 (by decide) (by decide) (by decide) (by decide) (by decide)
  exact ⟨h.1, h.2.1⟩

end TodoApp
